import Mathlib

/-!
Verification of the reference-resolution and caching core of
`monty/exts/info/github_info.py`.

The Python source is shallowly embedded below.  Pure fragments become Lean
functions; the stateful handlers (`on_message_automatic_issue_link`,
`on_message_edit_automatic_issue_link`, `swap_embed_state`, `fetch_data`)
become explicit state-passing functions whose oracle inputs (HTTP transport
responses, the item resolver, guild feature flags, edit failure) are passed
as parameters.  The regex layer of `extract_issues_from_message` is
abstracted as the list of regex matches in the order `itertools.chain`
yields them (all short-form matches, then all full-URL matches); everything
the loop body does with a match is modelled faithfully.
-/

/-- Mirrors the `FoundIssue` dataclass.  `@dataclass` generates `__eq__`
comparing all four fields (the hand-written `__hash__` only hashes the
triple, which is legal because equal objects still hash equally), so the
structural equality derived here is exactly the Python equality used by
`dict.fromkeys`. -/
structure FoundIssue where
  organisation : Option String
  repository : String
  number : String
  should_be_expanded : Bool
deriving DecidableEq

/-- Helper for `dedupe`: `dict.fromkeys` keeps the first occurrence of each
key (Python equality) and preserves insertion order; `seen` is the set of
keys already inserted. -/
def dedupeAux : List FoundIssue → List FoundIssue → List FoundIssue
  | _, [] => []
  | seen, x :: xs =>
    if x ∈ seen then dedupeAux seen xs else x :: dedupeAux (x :: seen) xs

/-- Mirrors `list(dict.fromkeys(issues, None))` at github_info.py:819. -/
def dedupe (l : List FoundIssue) : List FoundIssue :=
  dedupeAux [] l

/-- Which regex produced a match: `AUTOMATIC_REGEX` or
`GITHUB_ISSUE_LINK_REGEX` (github_info.py:69-76). -/
inductive MatchSource
  | automatic
  | issueLink
deriving DecidableEq

/-- One regex match from the (codeblock-stripped) message content, with the
named groups and the URL-shape facts the loop body inspects:
`url.path.rstrip("/").endswith(number)` and `url.fragment or url.query`
(github_info.py:795-801). -/
structure RegexMatch where
  source : MatchSource
  org : Option String
  repo : String
  number : String
  pathEndsWithNumber : Bool
  hasFragmentOrQuery : Bool
deriving DecidableEq

/-- Guild-level context consumed by the extraction loop: the configured
default organisation (`fetch_default_user`) and, per organisation, the
cached lowercased-name → canonical-name repository index (`fetch_repos`). -/
structure GuildEnv where
  default_user : Option String
  repos : String → String → Option String

/-- Models Python `str.lower()` character-wise; the repo-name regex only
admits word, dot and hyphen characters, for which this agrees. -/
def strToLower (s : String) : String := String.mk (s.data.map Char.toLower)

/-- The body of the `for match in matches` loop of
`extract_issues_from_message` (github_info.py:789-816): `none` models
`continue`. -/
def processMatch (env : GuildEnv) (m : RegexMatch) : Option FoundIssue :=
  let should_be_expanded := m.source = MatchSource.issueLink
  if m.source = MatchSource.issueLink ∧ (¬m.pathEndsWithNumber ∨ m.hasFragmentOrQuery) then
    none
  else
    let repo := strToLower m.repo
    match m.org with
    | some org => some ⟨some org, repo, m.number, should_be_expanded⟩
    | none =>
      match env.default_user with
      | none => none
      | some org =>
        match env.repos org repo with
        | none => none
        | some canonical => some ⟨some org, canonical, m.number, should_be_expanded⟩

/-- Mirrors `GithubInfo.extract_issues_from_message` (github_info.py:771-819)
from the match stream onwards: process every match in stream order, then
de-duplicate with `dict.fromkeys`. -/
def extract_issues_from_message (env : GuildEnv) (ms : List RegexMatch) : List FoundIssue :=
  dedupe (ms.filterMap (processMatch env))

/-- Number of extracted references carrying a given
(organisation, repository, number) identity. -/
def tripleCount (l : List FoundIssue) (o : Option String) (r n : String) : Nat :=
  (l.filter (fun i => i.organisation = o ∧ i.repository = r ∧ i.number = n)).length

/-- Concrete guild context for witnesses: no default organisation. -/
def env0 : GuildEnv := ⟨none, fun _ _ => none⟩

/-- A short-form match `a/b#1` followed by a full-URL match for the same
issue, as produced by the text `a/b#1 https://github.com/a/b/issues/1`. -/
def msC1 : List RegexMatch :=
  [⟨MatchSource.automatic, some "a", "b", "1", true, false⟩,
   ⟨MatchSource.issueLink, some "a", "b", "1", true, false⟩]

/-- Python truthiness of the cached `etag` value (`if not etag:` at
github_info.py:231): `None` and the empty string are falsy. -/
def truthyEtag : Option String → Bool
  | none => false
  | some s => decide (s ≠ "")

/-- Substring search over character lists, used to model Python `in`. -/
def containsSubAux : List Char → List Char → Bool
  | n, [] => n.isEmpty
  | n, c :: cs => n.isPrefixOf (c :: cs) || containsSubAux n cs

/-- Models Python `"/repos?" in url` (github_info.py:251). -/
def containsSub (needle hay : String) : Bool := containsSubAux needle.data hay.data

/-- A `CacheEntry` as stored by `GithubCache`: `(etag, body)`
(github_info.py:230, 250-252).  Stored bodies are always real payloads, so
the body component is a plain string. -/
abbrev CacheEntry := Option String × String

/-- One upstream HTTP response: status, optional `ETag` header, and the
decoded body (github_info.py:239-246). -/
structure HttpResponse where
  status : Nat
  etag : Option String
  body : String
deriving DecidableEq

/-- Observable outcome of one `fetch_data` call: the returned body (`none`
models Python `None`, returned only on a 304 with no cached body), the
cache entry for the key afterwards, the unconsumed transport responses, and
whether/with which `If-None-Match` header an upstream request was made. -/
structure FetchDataRun where
  body : Option String
  cache : Option CacheEntry
  transportRest : List HttpResponse
  requestMade : Bool
  sentIfNoneMatch : Option String
deriving DecidableEq

/-- Mirrors `GithubInfo.fetch_data` (github_info.py:214-253) for one key.
The transport oracle is the list of upcoming responses; a request consumes
the head.  Returns `none` only if a request is needed but the transport is
exhausted (not a code path; it keeps the model total).  TTLs are not
modelled (no clock); only which value is stored is. -/
def fetch_data (url : String) (cache : Option CacheEntry) (transport : List HttpResponse) :
    Option FetchDataRun :=
  match cache with
  | some (etag, body) =>
    if truthyEtag etag then
      match transport with
      | [] => none
      | r :: rest =>
        if r.status = 304 then
          some ⟨some body, some (etag, body), rest, true, etag⟩
        else
          let newCache :=
            if truthyEtag r.etag ∧ 200 ≤ r.status ∧ r.status < 300 then some (r.etag, r.body)
            else if containsSub "/repos?" url then some (none, r.body)
            else some (etag, body)
          some ⟨some r.body, newCache, rest, true, etag⟩
    else
      some ⟨some body, some (etag, body), transport, false, none⟩
  | none =>
    match transport with
    | [] => none
    | r :: rest =>
      if r.status = 304 then
        some ⟨none, none, rest, true, none⟩
      else
        let newCache :=
          if truthyEtag r.etag ∧ 200 ≤ r.status ∧ r.status < 300 then some (r.etag, r.body)
          else if containsSub "/repos?" url then some (none, r.body)
          else none
        some ⟨some r.body, newCache, rest, true, none⟩

/-- Whether a `fetch_data` run made an upstream request. -/
def runRequestMade (o : Option FetchDataRun) : Bool := o.elim false (·.requestMade)

/-- The `If-None-Match` header a `fetch_data` run attached, if any. -/
def runSentINM (o : Option FetchDataRun) : Option String := o.elim none (·.sentIfNoneMatch)

/-- The body a `fetch_data` run returned. -/
def runBody (o : Option FetchDataRun) : Option String := o.elim none (·.body)

/-- The cache entry after a `fetch_data` run. -/
def runCache (o : Option FetchDataRun) : Option CacheEntry := o.elim none (·.cache)

/-- The status emojis consumed from `constants.Emojis`
(github_info.py:594-621). -/
inductive Emoji
  | pull_request_merged
  | pull_request_closed
  | pull_request_draft
  | pull_request_open
  | discussion_answered
  | issue_draft
  | issue_open
  | issue_closed_unplanned
  | issue_closed_completed
  | issue_closed
deriving DecidableEq

/-- The `pull_request` sub-object of an issue payload; present (and truthy)
exactly when the item carries pull-request linkage. -/
structure PullRequestData where
  merged_at : Option String
  html_url : String
deriving DecidableEq

/-- The fields of the upstream JSON payload that `fetch_issues` inspects.
For a REST issue payload `answer` is absent (`false`); for a gql discussion
payload `pull_request`, `state`, `draft` and `state_reason` are absent and
`answer` is the truthiness of `json_data.get("answer")`. -/
structure IssuePayload where
  pull_request : Option PullRequestData
  state : Option String
  draft : Bool
  state_reason : Option String
  answer : Bool
  html_url : String
  url : String
  title : Option String
deriving DecidableEq

/-- The emoji-classification chain of `GithubInfo.fetch_issues`
(github_info.py:594-621), verbatim: pull-request linkage first, then the
discussion fallback, then the plain-issue chain. -/
def issue_emoji (is_discussion : Bool) (j : IssuePayload) : Emoji :=
  match j.pull_request with
  | some pull_data =>
    if pull_data.merged_at.isSome then .pull_request_merged
    else if j.state = some "closed" then .pull_request_closed
    else if j.draft then .pull_request_draft
    else .pull_request_open
  | none =>
    if is_discussion then
      if j.answer then .discussion_answered else .issue_draft
    else
      if j.state = some "open" then .issue_open
      else if j.state_reason = some "not_planned" then .issue_closed_unplanned
      else if j.state_reason = some "completed" then .issue_closed_completed
      else .issue_closed

/-- The abstract status tags the spec's classification table uses. -/
inductive Status
  | merged
  | closed
  | draft
  | opened
  | answered
  | unanswered
  | closed_unplanned
  | closed_completed
deriving DecidableEq

/-- Reading of each code emoji constant as a spec status tag.  The code uses
`Emojis.issue_draft` as its unanswered-discussion marker
(github_info.py:610), so that constant reads as `unanswered`. -/
def statusOf : Emoji → Status
  | .pull_request_merged => .merged
  | .pull_request_closed => .closed
  | .pull_request_draft => .draft
  | .pull_request_open => .opened
  | .discussion_answered => .answered
  | .issue_draft => .unanswered
  | .issue_open => .opened
  | .issue_closed_unplanned => .closed_unplanned
  | .issue_closed_completed => .closed_completed
  | .issue_closed => .closed

/-- Modelled from the spec: the claim's priority-ordered classification
table, written from its words (pull-request linkage: merged, closed, draft,
open; discussion fallback: answered or unanswered; plain issue: open,
closed_unplanned, closed_completed, closed). -/
def specClassify (is_discussion : Bool) (j : IssuePayload) : Status :=
  match j.pull_request with
  | some pull_data =>
    if pull_data.merged_at.isSome then .merged
    else if j.state = some "closed" then .closed
    else if j.draft then .draft
    else .opened
  | none =>
    if is_discussion then
      if j.answer then .answered else .unanswered
    else
      if j.state = some "open" then .opened
      else if j.state_reason = some "not_planned" then .closed_unplanned
      else if j.state_reason = some "completed" then .closed_completed
      else .closed

/-- Mirrors the `FetchError` dataclass (github_info.py:130-135);
`return_code` is an `Int` because the gql-failure path uses `-1`. -/
structure FetchError where
  return_code : Int
  message : String
deriving DecidableEq

/-- Mirrors the `IssueState` dataclass (github_info.py:138-148). -/
structure IssueState where
  organisation : String
  repository : String
  number : Nat
  url : String
  title : String
  emoji : Emoji
  raw_json : Option IssuePayload
deriving DecidableEq

/-- The `IssueState` construction at the tail of `fetch_issues`
(github_info.py:623-631), including the `issue_url` choice and the
`raw_json := None if is_discussion else json_data` rule. -/
def mkIssueState (user repository : String) (number : Nat) (is_discussion : Bool)
    (j : IssuePayload) : IssueState :=
  let issue_url :=
    match j.pull_request with
    | some pull_data => pull_data.html_url
    | none => if is_discussion then j.url else j.html_url
  ⟨user, repository, number, issue_url, j.title.getD "", issue_emoji is_discussion j,
    if is_discussion then none else some j⟩

/-- Outcome of the primary REST item lookup: a payload, or a body carrying
a `"message"` key (the not-found signal checked at github_info.py:553). -/
inductive PrimaryOutcome
  | payload (j : IssuePayload)
  | withMessage
deriving DecidableEq

/-- Outcome of the gql discussion query: a discussion payload, or a
`TransportError`/`TransportQueryError` (github_info.py:583). -/
inductive GqlOutcome
  | ok (d : IssuePayload)
  | err
deriving DecidableEq

/-- Result of `fetch_issues`: the returned union value plus how many gql
discussion queries were issued. -/
structure FetchIssuesRun where
  outcome : Sum IssueState FetchError
  gqlCalls : Nat
deriving DecidableEq

/-- Mirrors `GithubInfo.fetch_issues` (github_info.py:535-631) with the two
upstream interactions as oracles. -/
def fetch_issues (number : Nat) (repository user : String) (allow_discussions : Bool)
    (primary : PrimaryOutcome) (gqlResult : GqlOutcome) : FetchIssuesRun :=
  match primary with
  | .payload j => ⟨.inl (mkIssueState user repository number false j), 0⟩
  | .withMessage =>
    if ¬allow_discussions then ⟨.inr ⟨404, "Issue not found."⟩, 0⟩
    else
      match gqlResult with
      | .err => ⟨.inr ⟨-1, "Issue not found."⟩, 1⟩
      | .ok d => ⟨.inl (mkIssueState user repository number true d), 1⟩

/-- `MAXIMUM_ISSUES` (github_info.py:61). -/
def MAXIMUM_ISSUES : Nat := 6

/-- The content of the bot's reply message, abstracted as the inputs from
which it is rendered: either the "Too many issues/PRs!" error embed, or the
embed `format_embed(results, expand_one_issue)` builds. -/
inductive MsgContent
  | tooMany
  | embedOf (results : List IssueState) (expand_one_issue : Bool)
deriving DecidableEq

/-- The bot's sent reply: its current content, the state recorded in its
expand button's custom_id when one is attached, and (ghost field) the
extracted reference list whose processing produced the current content. -/
structure SentMessage where
  content : MsgContent
  expandButton : Option Bool
  renderedFrom : List FoundIssue
deriving DecidableEq

/-- One `autolink_cache` entry: `(sent_msg, issues)`
(github_info.py:197-199, 961, 1008, 1041, 1093). -/
abbrev AutolinkEntry := SentMessage × List FoundIssue

/-- `issues[0].should_be_expanded` on a nonempty list
(github_info.py:987). -/
def firstExpanded : List FoundIssue → Bool
  | [] => false
  | i :: _ => i.should_be_expanded

/-- The issues the resolution loop works on: those whose organisation is
known (`if repo_issue.organisation is None: continue`,
github_info.py:966-967, 1050-1051); one `fetch_issues` call is made per
such issue. -/
def workIssues (l : List FoundIssue) : List FoundIssue :=
  l.filter (fun i => i.organisation.isSome)

/-- Number of `fetch_issues` calls the resolution loop makes. -/
def fetchCount (l : List FoundIssue) : Nat := (workIssues l).length

/-- The `links` list the resolution loop accumulates: successfully resolved
`IssueState`s, in order; `FetchError` results are skipped
(github_info.py:969-976, 1053-1060). -/
def resolvedLinks (resolve : FoundIssue → Option IssueState) (l : List FoundIssue) :
    List IssueState :=
  (workIssues l).filterMap resolve

/-- The `total_pre_expanded` counter: resolved issues whose match requested
expansion (github_info.py:964-978). -/
def preExpandedCount (resolve : FoundIssue → Option IssueState) (l : List FoundIssue) : Nat :=
  ((workIssues l).filter (fun i => (resolve i).isSome && i.should_be_expanded)).length

/-- The `expand_one_issue` flag of the on-message handler
(github_info.py:987-993). -/
def expandOneFlag (resolve : FoundIssue → Option IssueState) (expandFeature : Bool)
    (issues : List FoundIssue) : Bool :=
  if (resolvedLinks resolve issues).length = 1 ∧ firstExpanded issues then true
  else expandFeature

/-- The expand button attached by the on-message handler, when
`expand_one_issue` is set and there is exactly one link
(github_info.py:998-1005); its recorded custom_id state is
`expand_one_issue and issue_count == 1`, which is true there. -/
def buttonOf (resolve : FoundIssue → Option IssueState) (expandFeature : Bool)
    (issues : List FoundIssue) : Option Bool :=
  if expandOneFlag resolve expandFeature issues ∧ (resolvedLinks resolve issues).length = 1
  then some true else none

/-- Result of the on-message handler for one unit: the unit's cache entry
afterwards (`none` when the handler returned without sending), and how many
`fetch_issues` calls were made. -/
structure OnMessageResult where
  entry : Option AutolinkEntry
  fetchCalls : Nat
deriving DecidableEq

/-- Mirrors `GithubInfo.on_message_automatic_issue_link`
(github_info.py:911-1008) from the extracted issue list onwards, for one
unit.  `resolve` is the `fetch_issues` oracle (`none` models a
`FetchError` result, which is skipped when building `links`);
`expandFeature` is `guild_has_feature(ISSUE_EXPAND_FEATURE_NAME)`.  One
`fetch_issues` call is made per extracted issue whose organisation is
known. -/
def on_message_automatic_issue_link (resolve : FoundIssue → Option IssueState)
    (expandFeature : Bool) (issues : List FoundIssue) : OnMessageResult :=
  if issues = [] then ⟨none, 0⟩
  else if issues.length > MAXIMUM_ISSUES then
    ⟨some (⟨.tooMany, none, issues⟩, issues), 0⟩
  else if preExpandedCount resolve issues > 1 then ⟨none, fetchCount issues⟩
  else if resolvedLinks resolve issues = [] then ⟨none, fetchCount issues⟩
  else
    ⟨some (⟨.embedOf (resolvedLinks resolve issues) (expandOneFlag resolve expandFeature issues),
        buttonOf resolve expandFeature issues, issues⟩, issues), fetchCount issues⟩

/-- Which branch of the on-edit handler ran. -/
inductive EditAction
  | noRecord
  | noChange
  | cleared
  | noLinks
  | editFailed
  | replaced
deriving DecidableEq

/-- Result of the on-edit handler: the unit's cache entry afterwards and
the branch taken. -/
structure OnEditResult where
  entry : Option AutolinkEntry
  action : EditAction
deriving DecidableEq

/-- The `is_expanded` flag the on-edit handler recovers from the sent
message's expand button: `False` unless the expand feature is on and an
expand button is present, in which case its recorded state
(github_info.py:1071-1079). -/
def editIsExpanded (expandFeature : Bool) (sent_msg : SentMessage) : Bool :=
  expandFeature && sent_msg.expandButton.getD false

/-- The expand button on the edited message afterwards: the handler swaps
the button only when the expand feature is on and an old button was found,
and `get_expand_button` returns a button only for exactly one link
(github_info.py:1074-1083). -/
def editNewButton (resolve : FoundIssue → Option IssueState) (expandFeature : Bool)
    (sent_msg : SentMessage) (after_trunc : List FoundIssue) : Option Bool :=
  if expandFeature ∧ sent_msg.expandButton.isSome then
    if (resolvedLinks resolve after_trunc).length = 1 then
      some (editIsExpanded expandFeature sent_msg)
    else none
  else sent_msg.expandButton

/-- Mirrors `GithubInfo.on_message_edit_automatic_issue_link`
(github_info.py:1010-1093) from the freshly extracted issue list onwards,
for one unit whose cache entry is `st`.  `editFails` is the oracle for
`sent_msg.edit` raising `disnake.HTTPException` (github_info.py:1086-1090).
Note the over-cap batch is truncated (`after_issues[:MAXIMUM_ISSUES]`,
github_info.py:1030), and the clear branch (github_info.py:1035-1045)
stores `(sent_msg, [])` without editing the sent message. -/
def on_message_edit_automatic_issue_link (resolve : FoundIssue → Option IssueState)
    (expandFeature : Bool) (editFails : Bool) (after_issues : List FoundIssue)
    (st : Option AutolinkEntry) : OnEditResult :=
  match st with
  | none => ⟨none, .noRecord⟩
  | some (sent_msg, before_issues) =>
    if before_issues = after_issues.take MAXIMUM_ISSUES then
      ⟨some (sent_msg, before_issues), .noChange⟩
    else if after_issues.take MAXIMUM_ISSUES = [] then ⟨some (sent_msg, []), .cleared⟩
    else if resolvedLinks resolve (after_issues.take MAXIMUM_ISSUES) = [] then
      ⟨some (sent_msg, before_issues), .noLinks⟩
    else if editFails then ⟨none, .editFailed⟩
    else
      ⟨some (⟨.embedOf (resolvedLinks resolve (after_issues.take MAXIMUM_ISSUES))
            (editIsExpanded expandFeature sent_msg),
          editNewButton resolve expandFeature sent_msg (after_issues.take MAXIMUM_ISSUES),
          after_issues.take MAXIMUM_ISSUES⟩, after_issues.take MAXIMUM_ISSUES),
        .replaced⟩

/-- The spec's DisplayRecord consistency invariant: the stored reference
set equals the (ghost) reference set whose processing produced the content
currently shown by the sent message. -/
def reference_set_consistent (e : AutolinkEntry) : Prop :=
  e.1.renderedFrom = e.2

instance (e : AutolinkEntry) : Decidable (reference_set_consistent e) := by
  unfold reference_set_consistent
  infer_instance

/-- The content of a cached entry's sent message, if any. -/
def entryContent (o : Option AutolinkEntry) : Option MsgContent :=
  o.elim none (fun e => some e.1.content)

/-- Fixture: the extracted reference `a/b#1`. -/
def fiA : FoundIssue := ⟨some "a", "b", "1", false⟩

/-- Fixture: the extracted reference `a/b#2`. -/
def fiB : FoundIssue := ⟨some "a", "b", "2", false⟩

/-- Fixture: a resolved item for `a/b#1`. -/
def isA : IssueState := ⟨"a", "b", 1, "u", "t", .issue_open, none⟩

/-- Fixture: a sent reply currently showing the render of `[isA]`, produced
from the extracted set `[fiA]`. -/
def msgA : SentMessage := ⟨.embedOf [isA] false, none, [fiA]⟩

/-- Fixture resolver: every fetch fails. -/
def resolveNone : FoundIssue → Option IssueState := fun _ => none

/-- Fixture resolver: every fetch resolves to `isA`. -/
def resolveA : FoundIssue → Option IssueState := fun _ => some isA

/-- Fixture resolver: every organisation-qualified reference resolves to a
distinct item. -/
def resolveEach : FoundIssue → Option IssueState := fun i =>
  match i.organisation with
  | some o => some ⟨o, i.repository, 0, i.number, "", .issue_open, none⟩
  | none => none

/-- Fixture: seven distinct extracted references, one more than
`MAXIMUM_ISSUES`. -/
def issues7 : List FoundIssue :=
  [fiA, ⟨some "a", "b", "2", false⟩, ⟨some "a", "b", "3", false⟩,
   ⟨some "a", "b", "4", false⟩, ⟨some "a", "b", "5", false⟩,
   ⟨some "a", "b", "6", false⟩, ⟨some "a", "b", "7", false⟩]

/-- The decoded fields of an expand-toggle custom_id, per
`EXPAND_ISSUE_CUSTOM_ID_REGEX` (github_info.py:86-91): owner id, current
state (`1` expanded / `0` collapsed), and the referenced issue triple. -/
structure ExpandToken where
  user_id : Nat
  current_state : Bool
  org : String
  repo : String
  number : String
deriving DecidableEq

/-- What `swap_embed_state` does for a valid token, observationally:
refuse (an ephemeral "you cannot collapse this" with no mutation), send a
private ephemeral embed (no mutation of the shared message), or edit the
shared message, rewriting its token.  The `Bool` is the `expand_one_issue`
flag passed to `format_embed`. -/
inductive SwapAction
  | refuseCollapse
  | ephemeral (expanded : Bool)
  | editShared (newToken : ExpandToken) (expanded : Bool)
deriving DecidableEq

/-- Whether a swap outcome is a private ephemeral embed. -/
def SwapAction.isEphemeral : SwapAction → Bool
  | .ephemeral _ => true
  | _ => false

/-- Mirrors `GithubInfo.swap_embed_state` (github_info.py:852-909) for a
valid token: a non-owner clicking an expanded token is refused; a non-owner
clicking a collapsed token gets a private ephemeral embed rendered with
`expand_one_issue = not is_expanded`; the owner's click edits the shared
message, flipping the token state. -/
def swap_embed_state (tok : ExpandToken) (actor : Nat) : SwapAction :=
  if actor ≠ tok.user_id then
    if tok.current_state then .refuseCollapse
    else .ephemeral true
  else
    .editShared ⟨tok.user_id, !tok.current_state, tok.org, tok.repo, tok.number⟩
      (!tok.current_state)

/-- Fixture: a token owned by user 42, currently expanded, for `a/b#1`. -/
def tok42 : ExpandToken := ⟨42, true, "a", "b", "1"⟩

theorem dedupeAux_sublist (seen l : List FoundIssue) : List.Sublist (dedupeAux seen l) l := by
  induction l generalizing seen with
  | nil => simp [dedupeAux]
  | cons x xs ih =>
    simp only [dedupeAux]
    split
    · exact (ih seen).cons x
    · exact (ih (x :: seen)).cons₂ x

theorem mem_dedupeAux (a : FoundIssue) (seen l : List FoundIssue) :
    a ∈ dedupeAux seen l ↔ a ∈ l ∧ a ∉ seen := by
  induction l generalizing seen with
  | nil => simp [dedupeAux]
  | cons x xs ih =>
    simp only [dedupeAux]
    split
    · rename_i hx
      rw [ih]
      constructor
      · rintro ⟨h1, h2⟩
        exact ⟨List.mem_cons_of_mem x h1, h2⟩
      · rintro ⟨h1, h2⟩
        rcases List.mem_cons.mp h1 with rfl | h1
        · exact absurd hx h2
        · exact ⟨h1, h2⟩
    · rename_i hx
      constructor
      · intro h
        rcases List.mem_cons.mp h with rfl | h
        · exact ⟨List.mem_cons_self a xs, hx⟩
        · rw [ih] at h
          refine ⟨List.mem_cons_of_mem x h.1, fun hs => h.2 (List.mem_cons_of_mem x hs)⟩
      · rintro ⟨h1, h2⟩
        by_cases hax : a = x
        · exact hax ▸ List.mem_cons_self x _
        · rcases List.mem_cons.mp h1 with rfl | h1
          · exact absurd rfl hax
          · refine List.mem_cons_of_mem x ?_
            rw [ih]
            refine ⟨h1, fun hs => ?_⟩
            rcases List.mem_cons.mp hs with rfl | hs
            · exact hax rfl
            · exact h2 hs

theorem nodup_dedupeAux (seen l : List FoundIssue) : (dedupeAux seen l).Nodup := by
  induction l generalizing seen with
  | nil => simp [dedupeAux]
  | cons x xs ih =>
    simp only [dedupeAux]
    split
    · exact ih seen
    · refine List.Nodup.cons (fun hmem => ?_) (ih (x :: seen))
      rw [mem_dedupeAux] at hmem
      exact hmem.2 (List.mem_cons_self x seen)

theorem dedupeAux_congr (l : List FoundIssue) (s1 s2 : List FoundIssue)
    (h : ∀ a, a ∈ s1 ↔ a ∈ s2) : dedupeAux s1 l = dedupeAux s2 l := by
  induction l generalizing s1 s2 with
  | nil => rfl
  | cons x xs ih =>
    simp only [dedupeAux]
    by_cases hx : x ∈ s1
    · rw [if_pos hx, if_pos ((h x).mp hx)]
      exact ih s1 s2 h
    · rw [if_neg hx, if_neg (fun hc => hx ((h x).mpr hc))]
      refine congrArg (x :: ·) (ih _ _ fun a => ?_)
      simp only [List.mem_cons]
      exact or_congr Iff.rfl (h a)

theorem dedupeAux_cons_seen (x : FoundIssue) (l : List FoundIssue) :
    ∀ seen, dedupeAux (x :: seen) l = dedupeAux seen (l.filter (fun y => decide (y ≠ x))) := by
  induction l with
  | nil => intro seen; rfl
  | cons y ys ih =>
    intro seen
    rw [List.filter_cons]
    by_cases hyx : y = x
    · subst hyx
      rw [if_neg (by simp)]
      simp only [dedupeAux]
      rw [if_pos (List.mem_cons_self y seen)]
      exact ih seen
    · rw [if_pos (by simp [hyx])]
      by_cases hys : y ∈ seen
      · simp only [dedupeAux]
        rw [if_pos (List.mem_cons_of_mem x hys), if_pos hys]
        exact ih seen
      · simp only [dedupeAux]
        rw [if_neg (by simp [hyx, hys]), if_neg hys]
        refine congrArg (y :: ·) ?_
        rw [dedupeAux_congr ys (y :: x :: seen) (x :: y :: seen) (by intro a; simp; tauto)]
        exact ih (y :: seen)

theorem dedupe_cons (x : FoundIssue) (xs : List FoundIssue) :
    dedupe (x :: xs) = x :: dedupe (xs.filter (fun y => decide (y ≠ x))) := by
  simp only [dedupe, dedupeAux, List.not_mem_nil, if_false]
  exact congrArg (x :: ·) (dedupeAux_cons_seen x xs [])

/-- C1 counterexample: the text `a/b#1 https://github.com/a/b/issues/1`
yields a short-form match and a full-URL match for the same
(organisation, repository, number) triple, differing only in
`should_be_expanded`.  The claim says they deduplicate to a single
Reference; the code keeps both, because `dict.fromkeys` compares with the
dataclass-generated `__eq__`, which includes `should_be_expanded`. -/
theorem c1_counterexample :
    tripleCount (extract_issues_from_message env0 msC1) (some "a") "b" "1" = 2 := by
  rfl

/-- C1 (amended): extraction deduplicates by full structural equality of
(organisation, repository, number, expand_hint): the output is
duplicate-free as quadruples, is a subsequence of the processed match
stream (so first-seen order is preserved and, by the last conjunct, the
first occurrence of each quadruple is the one kept), and keeps exactly the
processed occurrences; no OR of expand hints occurs, so two occurrences of
the same triple differing only in expand_hint remain two References. -/
theorem c1_amended (env : GuildEnv) (ms : List RegexMatch) :
    (extract_issues_from_message env ms).Nodup
    ∧ List.Sublist (extract_issues_from_message env ms) (ms.filterMap (processMatch env))
    ∧ (∀ x, x ∈ extract_issues_from_message env ms ↔ x ∈ ms.filterMap (processMatch env))
    ∧ (∀ y l, dedupe (y :: l) = y :: dedupe (l.filter (fun z => decide (z ≠ y)))) := by
  refine ⟨nodup_dedupeAux [] _, dedupeAux_sublist [] _, fun x => ?_, dedupe_cons⟩
  rw [extract_issues_from_message, dedupe, mem_dedupeAux]
  simp

/-- C2 (confirmed): when the stored entry for a key carries a (truthy)
validator, `fetch_data` attaches it as the `If-None-Match` header and still
performs the upstream request; on a 304 it returns the stored body
unchanged and leaves the entry in place.  Moreover the spec's round-trip
scenario holds: from an empty cache, against a transport answering
`(200, ETag v, body b1)` then `304`, two sequential calls both return `b1`
and consume exactly the two transport responses. -/
theorem c2_conditional_fetch (url v b b1 : String) (r : HttpResponse)
    (rest : List HttpResponse) (hv : v ≠ "") :
    runRequestMade (fetch_data url (some (some v, b)) (r :: rest)) = true
    ∧ runSentINM (fetch_data url (some (some v, b)) (r :: rest)) = some v
    ∧ (r.status = 304 →
        runBody (fetch_data url (some (some v, b)) (r :: rest)) = some b
        ∧ runCache (fetch_data url (some (some v, b)) (r :: rest)) = some (some v, b))
    ∧ fetch_data url none [⟨200, some v, b1⟩, ⟨304, none, ""⟩]
        = some ⟨some b1, some (some v, b1), [⟨304, none, ""⟩], true, none⟩
    ∧ fetch_data url (some (some v, b1)) [⟨304, none, ""⟩]
        = some ⟨some b1, some (some v, b1), [], true, some v⟩ := by
  have ht : truthyEtag (some v) = true := by simp [truthyEtag, hv]
  refine ⟨?_, ?_, fun h304 => ⟨?_, ?_⟩, ?_, ?_⟩
  · simp only [fetch_data, ht, if_true]
    split <;> rfl
  · simp only [fetch_data, ht, if_true]
    split <;> rfl
  · simp [fetch_data, ht, h304, runBody]
  · simp [fetch_data, ht, h304, runCache]
  · simp [fetch_data, ht]
  · simp [fetch_data, ht]

/-- Witness for `c2_conditional_fetch` at url `"u"`, validator `"v1"`,
stored body `"B"`, fresh body `"B1"` and a 304 response. -/
theorem c2_witness :
    ("v1" ≠ "")
    ∧ (runRequestMade (fetch_data "u" (some (some "v1", "B"))
          [⟨304, none, ""⟩]) = true
      ∧ runSentINM (fetch_data "u" (some (some "v1", "B"))
          [⟨304, none, ""⟩]) = some "v1"
      ∧ ((⟨304, none, ""⟩ : HttpResponse).status = 304 →
          runBody (fetch_data "u" (some (some "v1", "B"))
            [⟨304, none, ""⟩]) = some "B"
          ∧ runCache (fetch_data "u" (some (some "v1", "B"))
            [⟨304, none, ""⟩]) = some (some "v1", "B"))
      ∧ fetch_data "u" none [⟨200, some "v1", "B1"⟩, ⟨304, none, ""⟩]
          = some ⟨some "B1", some (some "v1", "B1"), [⟨304, none, ""⟩], true, none⟩
      ∧ fetch_data "u" (some (some "v1", "B1")) [⟨304, none, ""⟩]
          = some ⟨some "B1", some (some "v1", "B1"), [], true, some "v1"⟩) :=
  ⟨by decide, c2_conditional_fetch "u" "v1" "B" "B1" ⟨304, none, ""⟩ [] (by decide)⟩

/-- C4 (confirmed): item classification follows the spec's priority order —
pull-request linkage (merged / closed / draft / open), else the discussion
fallback (answered / unanswered), else the plain-issue chain (open /
closed_unplanned / closed_completed / closed). -/
theorem c4_classification (is_discussion : Bool) (j : IssuePayload) :
    statusOf (issue_emoji is_discussion j) = specClassify is_discussion j := by
  rcases j with ⟨pr, state, draft, reason, answer, hu, u, t⟩
  cases pr <;> cases is_discussion <;>
    simp only [issue_emoji, specClassify] <;> split_ifs <;> rfl

/-- C5 (confirmed): the gql discussion query is issued exactly when the
primary lookup signalled not-found (a `"message"` body) and the caller
allowed discussions; not-found with fallback disallowed returns
`FetchError(404, "Issue not found.")` with no gql call, and a transport
failure during the fallback returns `FetchError(-1, "Issue not found.")`. -/
theorem c5_fallback_gating (number : Nat) (repository user : String) (allow : Bool)
    (primary : PrimaryOutcome) (gqlResult : GqlOutcome) :
    ((fetch_issues number repository user allow primary gqlResult).gqlCalls
        = match primary with
          | .withMessage => if allow then 1 else 0
          | .payload _ => 0)
    ∧ fetch_issues number repository user false .withMessage gqlResult
        = ⟨.inr ⟨404, "Issue not found."⟩, 0⟩
    ∧ fetch_issues number repository user true .withMessage .err
        = ⟨.inr ⟨-1, "Issue not found."⟩, 1⟩ := by
  refine ⟨?_, ?_, ?_⟩
  · cases primary <;> cases gqlResult <;> cases allow <;> rfl
  · cases gqlResult <;> rfl
  · rfl

/-- C6 (confirmed): a first-render batch of more than `MAXIMUM_ISSUES`
references is rejected whole with the "Too many issues/PRs!" error before
the resolution loop: zero `fetch_issues` calls, and the cached entry stores
the error reply with the untouched batch. -/
theorem c6_toomany_batch (resolve : FoundIssue → Option IssueState) (expandFeature : Bool)
    (issues : List FoundIssue) (h : issues.length > MAXIMUM_ISSUES) :
    on_message_automatic_issue_link resolve expandFeature issues
      = ⟨some (⟨.tooMany, none, issues⟩, issues), 0⟩ := by
  have hne : ¬(issues = []) := by
    intro h0
    rw [h0] at h
    exact absurd h (by decide)
  rw [on_message_automatic_issue_link, if_neg hne, if_pos h]

/-- Witness for `c6_toomany_batch`: seven references. -/
theorem c6_witness :
    (issues7.length > MAXIMUM_ISSUES)
    ∧ on_message_automatic_issue_link resolveNone false issues7
        = ⟨some (⟨.tooMany, none, issues7⟩, issues7), 0⟩ :=
  ⟨by decide, c6_toomany_batch resolveNone false issues7 (by decide)⟩

/-- C3 counterexample: an edit that clears all references stores
`(sent_msg, [])` but never edits the sent message (github_info.py:1035-1045
returns without calling `sent_msg.edit`), so the stored reference set `[]`
no longer equals the set `[fiA]` whose processing produced the content
still shown. -/
theorem c3_counterexample :
    (on_message_edit_automatic_issue_link resolveNone false false []
        (some (msgA, [fiA]))).entry = some (msgA, [])
    ∧ ¬ reference_set_consistent (msgA, []) :=
  ⟨rfl, by decide⟩

/-- C3 (amended): the consistency invariant holds after a first render and
is preserved by every edit branch except the clearing edit: there the
stored reference set becomes `[]` while the sent message keeps the content
produced from the previous reference set. -/
theorem c3_amended (resolve : FoundIssue → Option IssueState)
    (expandFeature editFails : Bool) (issues after : List FoundIssue)
    (msg : SentMessage) (refs : List FoundIssue) (e e2 : AutolinkEntry)
    (hcons : reference_set_consistent (msg, refs))
    (hmsg : (on_message_automatic_issue_link resolve expandFeature issues).entry = some e)
    (hedit : (on_message_edit_automatic_issue_link resolve expandFeature editFails after
        (some (msg, refs))).entry = some e2) :
    reference_set_consistent e
    ∧ (reference_set_consistent e2
        ∨ (e2.2 = [] ∧ e2.1 = msg ∧ msg.renderedFrom = refs)) := by
  constructor
  · unfold on_message_automatic_issue_link at hmsg
    split at hmsg
    · exact absurd hmsg (by simp)
    · split at hmsg
      · cases Option.some.inj hmsg
        rfl
      · split at hmsg
        · exact absurd hmsg (by simp)
        · split at hmsg
          · exact absurd hmsg (by simp)
          · cases Option.some.inj hmsg
            rfl
  · simp only [on_message_edit_automatic_issue_link] at hedit
    split at hedit
    · cases Option.some.inj hedit
      exact Or.inl hcons
    · split at hedit
      · cases Option.some.inj hedit
        exact Or.inr ⟨rfl, rfl, hcons⟩
      · split at hedit
        · cases Option.some.inj hedit
          exact Or.inl hcons
        · split at hedit
          · exact absurd hedit (by simp)
          · cases Option.some.inj hedit
            exact Or.inl rfl

/-- Witness for `c3_amended`: a first render of `[fiA]` followed by a
clearing edit. -/
theorem c3_witness :
    (reference_set_consistent (msgA, [fiA])
      ∧ (on_message_automatic_issue_link resolveA false [fiA]).entry = some (msgA, [fiA])
      ∧ (on_message_edit_automatic_issue_link resolveA false false []
          (some (msgA, [fiA]))).entry = some (msgA, []))
    ∧ (reference_set_consistent (msgA, [fiA])
      ∧ (reference_set_consistent ((msgA, []) : AutolinkEntry)
          ∨ (((msgA, []) : AutolinkEntry).2 = []
              ∧ (((msgA, []) : AutolinkEntry)).1 = msgA ∧ msgA.renderedFrom = [fiA]))) :=
  ⟨⟨by decide, rfl, rfl⟩,
   c3_amended resolveA false false [fiA] [] msgA [fiA] (msgA, [fiA]) (msgA, [])
     (by decide) rfl rfl⟩

/-- C7 counterexample: an edit producing seven references (all resolving)
against a record showing one reference is not rejected: the handler
truncates to six (github_info.py:1030), replaces the display content and
overwrites the stored record. -/
theorem c7_counterexample :
    (on_message_edit_automatic_issue_link resolveEach false false issues7
        (some (msgA, [fiA]))).action = .replaced
    ∧ (on_message_edit_automatic_issue_link resolveEach false false issues7
        (some (msgA, [fiA]))).entry ≠ some (msgA, [fiA])
    ∧ entryContent (on_message_edit_automatic_issue_link resolveEach false false issues7
        (some (msgA, [fiA]))).entry ≠ some msgA.content :=
  ⟨rfl, by decide, by decide⟩

/-- C7 (amended): on edit, an over-cap batch is not rejected but truncated
to its first `MAXIMUM_ISSUES` references: the handler behaves exactly as if
it had been invoked with the truncated batch, which may replace the
previous display. -/
theorem c7_amended (resolve : FoundIssue → Option IssueState) (expandFeature editFails : Bool)
    (after : List FoundIssue) (st : Option AutolinkEntry) :
    on_message_edit_automatic_issue_link resolve expandFeature editFails after st
      = on_message_edit_automatic_issue_link resolve expandFeature editFails
          (after.take MAXIMUM_ISSUES) st := by
  match st with
  | none => rfl
  | some (sent_msg, before_issues) =>
    simp only [on_message_edit_automatic_issue_link, List.take_take, Nat.min_self]

/-- C8 counterexample: an edit whose new, changed, nonempty reference set
resolves to nothing takes the `if not links: return` branch
(github_info.py:1064-1066): the record keeps its previous nonempty
reference set instead of becoming empty. -/
theorem c8_counterexample :
    on_message_edit_automatic_issue_link resolveNone false false [fiB]
        (some (msgA, [fiA]))
      = ⟨some (msgA, [fiA]), .noLinks⟩
    ∧ [fiA] ≠ ([] : List FoundIssue) :=
  ⟨rfl, by decide⟩

/-- C8 (amended): when a changed, nonempty edit batch resolves to no links,
the reconciliation is abandoned: the stored record keeps its previous
reference set and the sent message is not edited (no Clear happens). -/
theorem c8_amended (resolve : FoundIssue → Option IssueState) (expandFeature editFails : Bool)
    (after : List FoundIssue) (msg : SentMessage) (refs : List FoundIssue)
    (h1 : refs ≠ after.take MAXIMUM_ISSUES)
    (h2 : after.take MAXIMUM_ISSUES ≠ [])
    (h3 : resolvedLinks resolve (after.take MAXIMUM_ISSUES) = []) :
    on_message_edit_automatic_issue_link resolve expandFeature editFails after
        (some (msg, refs))
      = ⟨some (msg, refs), .noLinks⟩ := by
  simp only [on_message_edit_automatic_issue_link]
  rw [if_neg h1, if_neg h2, if_pos h3]

/-- Witness for `c8_amended`: edit `[fiA] → [fiB]` where `fiB` fails to
resolve. -/
theorem c8_witness :
    (([fiA] : List FoundIssue) ≠ [fiB].take MAXIMUM_ISSUES
      ∧ [fiB].take MAXIMUM_ISSUES ≠ []
      ∧ resolvedLinks resolveNone ([fiB].take MAXIMUM_ISSUES) = [])
    ∧ on_message_edit_automatic_issue_link resolveNone true true [fiB]
        (some (msgA, [fiA]))
      = ⟨some (msgA, [fiA]), .noLinks⟩ :=
  ⟨⟨by decide, by decide, by decide⟩,
   c8_amended resolveNone true true [fiB] msgA [fiA] (by decide) (by decide) (by decide)⟩

/-- C10 (confirmed): when editing the previously sent message fails with an
HTTPException, the unit's cache entry is deleted (github_info.py:1088-1090),
and any subsequent edit of a unit with no cache entry returns at the
`KeyError` guard with no action (github_info.py:1019-1022). -/
theorem c10_edit_failure_deletes_record (resolve r2 : FoundIssue → Option IssueState)
    (expandFeature e2 f2 : Bool) (after a2 : List FoundIssue)
    (msg : SentMessage) (refs : List FoundIssue)
    (h1 : refs ≠ after.take MAXIMUM_ISSUES)
    (h2 : after.take MAXIMUM_ISSUES ≠ [])
    (h3 : resolvedLinks resolve (after.take MAXIMUM_ISSUES) ≠ []) :
    on_message_edit_automatic_issue_link resolve expandFeature true after
        (some (msg, refs))
      = ⟨none, .editFailed⟩
    ∧ on_message_edit_automatic_issue_link r2 e2 f2 a2 none = ⟨none, .noRecord⟩ := by
  constructor
  · simp only [on_message_edit_automatic_issue_link]
    rw [if_neg h1, if_neg h2, if_neg h3]
    exact if_pos trivial
  · rfl

/-- Witness for `c10_edit_failure_deletes_record`: edit `[fiA] → [fiB]`
with `fiB` resolving and the message edit failing. -/
theorem c10_witness :
    (([fiA] : List FoundIssue) ≠ [fiB].take MAXIMUM_ISSUES
      ∧ [fiB].take MAXIMUM_ISSUES ≠ []
      ∧ resolvedLinks resolveA ([fiB].take MAXIMUM_ISSUES) ≠ [])
    ∧ (on_message_edit_automatic_issue_link resolveA false true [fiB]
          (some (msgA, [fiA]))
        = ⟨none, .editFailed⟩
      ∧ on_message_edit_automatic_issue_link resolveA false false [fiB] none
        = ⟨none, .noRecord⟩) :=
  ⟨⟨by decide, by decide, by decide⟩,
   c10_edit_failure_deletes_record resolveA resolveA false false false [fiB] [fiB] msgA [fiA]
     (by decide) (by decide) (by decide)⟩

/-- C9 counterexample: the claim says any actor may request a private
ephemeral expansion regardless of token ownership; but for a token in
expanded state, a non-owner's click is refused outright — no ephemeral
embed is produced. -/
theorem c9_counterexample :
    swap_embed_state tok42 99 = .refuseCollapse
    ∧ (swap_embed_state tok42 99).isEphemeral = false :=
  ⟨rfl, rfl⟩

/-- C9 (amended): only the owner may collapse: a non-owner's click on an
expanded token is refused with no mutation, while a non-owner's click on a
collapsed token yields a private ephemeral expansion (again no mutation of
the shared token); the owner's click edits the shared message, flipping
exactly the state field of the token. -/
theorem c9_amended (tok : ExpandToken) (actor : Nat) (h : actor ≠ tok.user_id) :
    swap_embed_state tok actor
      = (if tok.current_state then .refuseCollapse else .ephemeral true)
    ∧ swap_embed_state tok tok.user_id
      = .editShared ⟨tok.user_id, !tok.current_state, tok.org, tok.repo, tok.number⟩
          (!tok.current_state) := by
  constructor
  · rw [swap_embed_state, if_pos h]
  · rw [swap_embed_state, if_neg (by simp)]

/-- Witness for `c9_amended`: owner 42, expanded token, non-owner 99. -/
theorem c9_witness :
    ((99 : Nat) ≠ tok42.user_id)
    ∧ (swap_embed_state tok42 99
        = (if tok42.current_state then .refuseCollapse else .ephemeral true)
      ∧ swap_embed_state tok42 tok42.user_id
        = .editShared ⟨tok42.user_id, !tok42.current_state, tok42.org, tok42.repo, tok42.number⟩
            (!tok42.current_state)) :=
  ⟨by decide, c9_amended tok42 99 (by decide)⟩
